import Mathlib

/-!
Verification of the CNPJ lookup service (client script `public/script.js` and
server handler `api/cnpj.js`) against its natural-language specification.

The JavaScript source is shallowly embedded: strings are Lean `String`s,
JavaScript numbers are `ℚ` (no claim here depends on float rounding),
dynamic JSON values are the inductive `JVal`, the two in-memory `Map`s
(response cache, rate-limit window) are insertion-ordered association lists,
and code that can throw returns `Except String`.
-/

set_option maxHeartbeats 1000000
set_option maxRecDepth 8000

/-! ## JavaScript string primitives used by the source -/

/-- `\D` removal: the characters of `s.replace(/\D/g, "")` (JS `\d` is `[0-9]`,
which is exactly `Char.isDigit`). -/
def jsDigitChars (s : String) : List Char := s.data.filter Char.isDigit

/-- `s.replace(/\D/g, "")` as a string. -/
def cleanDigits (s : String) : String := ⟨jsDigitChars s⟩

/-- The numeric value of each kept digit character: the coercions
`numeros.charAt(i) * pos` and `parseInt(digitos.charAt(i))` both yield the
digit's value, so the cleaned string is embedded as its list of digit values. -/
def digitVals (s : String) : List Nat := (jsDigitChars s).map (fun c => c.toNat - 48)

/-! ## CNPJ check-digit algorithm (src/public/script.js lines 87-136 and 807-854) -/

/-- Embeds the weighting loop
`for (i = tamanho; i >= 1; i--) { soma += numeros.charAt(tamanho - i) * pos--; if (pos < 2) pos = 9; }`:
digits are consumed most-significant first, the weight `pos` decrements after
each use and wraps to 9 when it would drop below 2. -/
def cnpjWeightedSum : List Nat → Nat → Nat
  | [], _ => 0
  | d :: ds, pos => d * pos + cnpjWeightedSum ds (if pos - 1 < 2 then 9 else pos - 1)

/-- `soma % 11 < 2 ? 0 : 11 - (soma % 11)`. -/
def cnpjCheckDigit (soma : Nat) : Nat := if soma % 11 < 2 then 0 else 11 - soma % 11

/-- The test `/^(\d)\1+$/.test(cnpj)` applied to an all-digit string: it matches
exactly when the string has length at least two and every character repeats the
first one. -/
def jsAllSameDigits : List Nat → Bool
  | [] => false
  | d :: ds => ds ≠ [] && ds.all (· = d)

/-- Embeds `validateCNPJ` (src/public/script.js lines 87-136). The source first
strips non-digits, rejects wrong lengths and repeated-digit strings, then checks
the two verification digits produced by the weighting loop (initial weights
`tamanho - 7`, i.e. 5 and 6). -/
def validateCNPJ (cnpj : String) : Bool :=
  let ds := digitVals cnpj
  if ds.length ≠ 14 then false
  else if jsAllSameDigits ds then false
  else if cnpjCheckDigit (cnpjWeightedSum (ds.take 12) 5) ≠ (ds.drop 12).headD 0 then false
  else if cnpjCheckDigit (cnpjWeightedSum (ds.take 13) 6) ≠ (ds.drop 13).headD 0 then false
  else true

/-- Result shape of the server-side validator:
`{isValid: false, error}` or `{isValid: true, cleaned}`. -/
inductive SValidation where
  | invalid (error : String)
  | valid (cleaned : String)
deriving DecidableEq

def SValidation.isValid : SValidation → Bool
  | .invalid _ => false
  | .valid _ => true

def SValidation.errorMsg : SValidation → Option String
  | .invalid e => some e
  | .valid _ => none

def SValidation.cleanedStr : SValidation → Option String
  | .invalid _ => none
  | .valid c => some c

/-- Embeds `CNPJValidatorServer.validate` (src/public/script.js lines 807-854):
the same check-digit algorithm as `validateCNPJ`, returning the cleaned
14-digit string on success and a message on failure. -/
def CNPJValidatorServer.validate (cnpj : String) : SValidation :=
  let ds := digitVals cnpj
  if ds.length ≠ 14 then .invalid "CNPJ deve conter 14 dígitos"
  else if jsAllSameDigits ds then .invalid "CNPJ inválido"
  else if cnpjCheckDigit (cnpjWeightedSum (ds.take 12) 5) ≠ (ds.drop 12).headD 0 then .invalid "CNPJ inválido"
  else if cnpjCheckDigit (cnpjWeightedSum (ds.take 13) 6) ≠ (ds.drop 13).headD 0 then .invalid "CNPJ inválido"
  else .valid (cleanDigits cnpj)

/-! ## Spec-side statement of the validation rule (spec §4.1, claim C1):
literal weight tables, not-all-identical, `checkDigit = sum % 11 < 2 ? 0 : 11 - (sum % 11)`. -/

/-- The classic weight sequence for the first check digit (spec §4.1 step 4). -/
def specWeights1 : List Nat := [5, 4, 3, 2, 9, 8, 7, 6, 5, 4, 3, 2]

/-- The extended weight sequence for the second check digit (spec §4.1 step 5). -/
def specWeights2 : List Nat := [6, 5, 4, 3, 2, 9, 8, 7, 6, 5, 4, 3, 2]

/-- Acceptance as the spec words it: after stripping non-digits there are
exactly 14 digits, they are not all identical, and each check digit equals the
weighted mod-11 value of the preceding digits with the classic weight tables. -/
def specCNPJAccepts (s : String) : Bool :=
  let ds := digitVals s
  ds.length = 14 && !ds.all (· = ds.headD 0) &&
    ds.getD 12 0 = cnpjCheckDigit ((List.zipWith (· * ·) (ds.take 12) specWeights1).sum) &&
    ds.getD 13 0 = cnpjCheckDigit ((List.zipWith (· * ·) (ds.take 13) specWeights2).sum)

/-! Helper lemmas relating the procedural weight loop to the literal tables. -/

/-- The weight sequence the loop walks through, as a function of the initial
weight and of how many digits are consumed. -/
def cnpjWeightSeq : Nat → Nat → List Nat
  | _, 0 => []
  | pos, n + 1 => pos :: cnpjWeightSeq (if pos - 1 < 2 then 9 else pos - 1) n

/-- The four conditions a string must pass, read off the shared if-chain of the
two validators. -/
def cnpjChecksOut (s : String) : Prop :=
  (digitVals s).length = 14 ∧ jsAllSameDigits (digitVals s) = false ∧
    cnpjCheckDigit (cnpjWeightedSum ((digitVals s).take 12) 5) = ((digitVals s).drop 12).headD 0 ∧
    cnpjCheckDigit (cnpjWeightedSum ((digitVals s).take 13) 6) = ((digitVals s).drop 13).headD 0

/-! ## JS `Map` model: insertion-ordered association list with unique keys -/

/-- JS `Map.prototype.set`: update the (unique) entry with this key in place,
or append a new entry at the end of the iteration order. -/
def jsMapSet {α : Type} : List (String × α) → String → α → List (String × α)
  | [], k, v => [(k, v)]
  | e :: es, k, v => if e.1 = k then (k, v) :: es else e :: jsMapSet es k v

/-- JS `Map.prototype.get`. -/
def jsMapGet {α : Type} (m : List (String × α)) (k : String) : Option α :=
  (m.find? (fun e => decide (e.1 = k))).map (·.2)

/-- JS `Map.prototype.delete` of the (unique) entry with this key. -/
def jsMapDelete {α : Type} (m : List (String × α)) (k : String) : List (String × α) :=
  m.eraseP (fun e => decide (e.1 = k))

/-- JS `String.prototype.startsWith`, used as `key.startsWith(ip)`. -/
def jsStartsWith (s p : String) : Bool := p.data.isPrefixOf s.data

/-! ## `SECURITY_CONFIG` (src/public/script.js lines 709-714) -/

def MAX_REQUESTS_PER_MINUTE : Nat := 10

def TIMEOUT_MS : Int := 10000

def CACHE_TTL : Int := 5 * 60 * 1000

/-- Embeds `SecurityMiddleware.checkRateLimit` (src/public/script.js lines
735-756): delete entries whose timestamp predates the 60-second window, count
the remaining entries whose key starts with the client id and whose timestamp
is strictly inside the window, reject when the count has reached
`MAX_REQUESTS_PER_MINUTE`, otherwise record `now` under key `ip + "-" + now`. -/
def SecurityMiddleware.checkRateLimit (ip : String) (now : Int)
    (rateLimitMap : List (String × Int)) : Bool × List (String × Int) :=
  let windowStart := now - 60000
  let purged := rateLimitMap.filter (fun e => !decide (e.2 < windowStart))
  let requestCount :=
    (purged.filter (fun e => jsStartsWith e.1 ip && decide (windowStart < e.2))).length
  if MAX_REQUESTS_PER_MINUTE ≤ requestCount then (false, purged)
  else (true, jsMapSet purged (ip ++ ("-" ++ toString now)) now)

/-- Embeds `SecurityMiddleware.sanitizeCNPJ` (src/public/script.js lines
765-770): strip non-digits and keep only the first 14 characters. -/
def SecurityMiddleware.sanitizeCNPJ (cnpj : String) : String :=
  ⟨(jsDigitChars cnpj).take 14⟩

/-! ## `CacheManager` (src/public/script.js lines 776-802) -/

/-- A `requestCache` entry: `{data, timestamp: Date.now()}`. -/
structure CacheEntry (α : Type) where
  data : α
  timestamp : Int
deriving DecidableEq

/-- Embeds `CacheManager.get`: a fresh entry is returned as-is, an expired one
(`now - timestamp >= CACHE_TTL`) is deleted and `null` is returned. The pair
also carries the store because the expired branch mutates it. -/
def CacheManager.get {α : Type} (requestCache : List (String × CacheEntry α))
    (cnpj : String) (now : Int) : Option α × List (String × CacheEntry α) :=
  match jsMapGet requestCache cnpj with
  | some entry =>
    if now - entry.timestamp < CACHE_TTL then (some entry.data, requestCache)
    else (none, jsMapDelete requestCache cnpj)
  | none => (none, requestCache)

/-- Embeds `CacheManager.set`: store `{data, timestamp: now}` under the cleaned
CNPJ. -/
def CacheManager.set {α : Type} (requestCache : List (String × CacheEntry α))
    (cnpj : String) (data : α) (now : Int) : List (String × CacheEntry α) :=
  jsMapSet requestCache cnpj ⟨data, now⟩

/-- Runs a sequence of `checkRateLimit` calls for a single client against the
evolving rate-limit map, collecting every call's verdict (proof harness, not
source code). -/
def rlRun (ip : String) : List Int → List (String × Int) → List Bool × List (String × Int)
  | [], m => ([], m)
  | t :: ts, m =>
    let r := SecurityMiddleware.checkRateLimit ip t m
    let rest := rlRun ip ts r.2
    (r.1 :: rest.1, rest.2)

/-- A rate-limit map holding one expired entry of another client and ten
in-window entries of client `"c"` (concrete input for the C5 counterexample). -/
def rlDemoMap : List (String × Int) :=
  [("x", 0), ("c-90001", 90001), ("c-90002", 90002), ("c-90003", 90003), ("c-90004", 90004),
    ("c-90005", 90005), ("c-90006", 90006), ("c-90007", 90007), ("c-90008", 90008),
    ("c-90009", 90009), ("c-90010", 90010)]

/-- The twelve call times of the amended C5 scenario: ten calls at distinct
milliseconds inside one 60-second window, an eleventh call still inside that
window, and a final call after the window has fully passed. -/
def rlSchedule : List Int :=
  [100000, 100001, 100002, 100003, 100004, 100005, 100006, 100007, 100008, 100009,
    100010, 160011]

/-! ## Dynamic JS/JSON values -/

/-- A JavaScript value as the mappers see it: `undefined`, `null`, booleans,
numbers (as `ℚ`; no claim depends on float rounding), strings, arrays and
objects. -/
inductive JVal where
  | jundefined
  | jnull
  | jbool (b : Bool)
  | jnum (q : ℚ)
  | jstr (s : String)
  | jarr (elems : List JVal)
  | jobj (fields : List (String × JVal))

/-- JS truthiness: `undefined`, `null`, `false`, `0` and the empty string are
falsy. The model has no `NaN` value: `parseFloat` failures are `Option.none`
before they re-enter `JVal`. -/
def JVal.truthy : JVal → Bool
  | .jundefined => false
  | .jnull => false
  | .jbool b => b
  | .jnum q => !decide (q = 0)
  | .jstr s => !decide (s = "")
  | .jarr _ => true
  | .jobj _ => true

/-- First field with the given name in an object (upstream JSON objects carry
unique keys). -/
def jobjLookup (fields : List (String × JVal)) (name : String) : Option JVal :=
  (fields.find? (fun f => decide (f.1 = name))).map (·.2)

/-- JS property read `v.name`: a `TypeError` on `undefined` and `null`, the
field (or `undefined`) on objects, and `undefined` on the other primitives
(none of the mapped field names is a built-in property). -/
def JVal.getField : JVal → String → Except String JVal
  | .jundefined, n => .error ("TypeError: cannot read properties of undefined (reading " ++ n ++ ")")
  | .jnull, n => .error ("TypeError: cannot read properties of null (reading " ++ n ++ ")")
  | .jobj fs, n => .ok ((jobjLookup fs n).getD .jundefined)
  | _, _ => .ok .jundefined

/-- JS optional chaining `v?.name`: `undefined` on nullish values. -/
def JVal.optField (v : JVal) (n : String) : Except String JVal :=
  match v with
  | .jundefined => .ok .jundefined
  | .jnull => .ok .jundefined
  | _ => v.getField n

/-- JS `a || b`. -/
def JVal.orElse (a b : JVal) : JVal := if a.truthy then a else b

/-- JS strict equality `v === "lit"` against a string literal. -/
def JVal.strictEqStr (v : JVal) (lit : String) : Bool :=
  match v with
  | .jstr s => decide (s = lit)
  | _ => false

/-- JS `Array.isArray`. -/
def JVal.isArray : JVal → Bool
  | .jarr _ => true
  | _ => false

/-- `Array.prototype.map` with a callback that can throw, left to right. -/
def jsArrayMapM (f : JVal → Except String JVal) : List JVal → Except String (List JVal)
  | [] => .ok []
  | x :: xs => do
    let y ← f x
    let ys ← jsArrayMapM f xs
    .ok (y :: ys)

/-- `Array.prototype.filter` keeping the elements whose callback value is
truthy. -/
def jsArrayFilterM (p : JVal → Except String JVal) : List JVal → Except String (List JVal)
  | [] => .ok []
  | x :: xs => do
    let v ← p x
    let rest ← jsArrayFilterM p xs
    .ok (if v.truthy then x :: rest else rest)

/-- JS `v?.map(f)`: `undefined` when `v` is nullish, the mapped array when `v`
is an array, otherwise a thrown `TypeError` (no other value used here has a
callable `map`). -/
def jsOptMapCall (v : JVal) (f : JVal → Except String JVal) : Except String JVal :=
  match v with
  | .jundefined => .ok .jundefined
  | .jnull => .ok .jundefined
  | .jarr xs => do
    let ys ← jsArrayMapM f xs
    .ok (.jarr ys)
  | _ => .error "TypeError: .map is not a function"

/-- The decimal form a number takes inside a template string (exact for the
integral values occurring here; no claim depends on float formatting). -/
def qToString (q : ℚ) : String :=
  if q.den = 1 then toString q.num else toString q.num ++ "/" ++ toString q.den

/-- JS string coercion as used by the address template literal. Model
simplification: an array would coerce by recursively joining its elements with
commas; here it becomes the empty string, as for the empty array. The claims
proved below never feed an array into a string-coerced position, and this keeps
every definition reducible by the kernel. -/
def JVal.jsToString : JVal → String
  | .jundefined => "undefined"
  | .jnull => "null"
  | .jbool b => if b then "true" else "false"
  | .jnum q => qToString q
  | .jstr s => s
  | .jarr _ => ""
  | .jobj _ => "[object Object]"

/-! ## JS string methods used by the mappers -/

/-- `String.prototype.replace` with a string pattern: replace the first
occurrence only. -/
def listReplaceFirst (pat rep : List Char) : List Char → List Char
  | [] => if pat.isPrefixOf [] then rep else []
  | c :: cs =>
    if pat.isPrefixOf (c :: cs) then rep ++ (c :: cs).drop pat.length
    else c :: listReplaceFirst pat rep cs

def jsReplaceFirst (s pat rep : String) : String := ⟨listReplaceFirst pat.data rep.data s.data⟩

/-- `value.replace(/\./g, "")`: remove every dot. -/
def jsRemoveDots (s : String) : String := ⟨s.data.filter (fun c => !decide (c = '.'))⟩

/-- `String.prototype.trim` (whitespace at both ends). -/
def jsTrim (s : String) : String := s.trim

/-- JS `v?.replace(pat, rep)`: `undefined` on nullish values, a string
replacement on strings, and a thrown `TypeError` on every other value — e.g.
when the upstream sent `capital_social` as a number. -/
def jsOptReplaceCall (v : JVal) (pat rep : String) : Except String JVal :=
  match v with
  | .jundefined => .ok .jundefined
  | .jnull => .ok .jundefined
  | .jstr s => .ok (.jstr (jsReplaceFirst s pat rep))
  | _ => .error "TypeError: .replace is not a function"

/-! ## `parseFloat` -/

def digitsToNat : List Char → Nat → Nat
  | [], acc => acc
  | c :: cs, acc => digitsToNat cs (acc * 10 + (c.toNat - 48))

def leadingDigits : List Char → List Char × List Char
  | [] => ([], [])
  | c :: cs =>
    if c.isDigit then
      let r := leadingDigits cs
      (c :: r.1, r.2)
    else ([], c :: cs)

/-- The JS builtin `parseFloat` on a string: skip leading whitespace, then the
longest `[+-]? digits [. digits]` numeric literal; `none` models `NaN`.
Exponent suffixes are not modelled — no currency string mapped here has one. -/
def jsParseFloat (s : String) : Option ℚ :=
  let cs := s.data.dropWhile (fun c => c.isWhitespace)
  let sign : ℚ × List Char :=
    match cs with
    | '-' :: rest => (-1, rest)
    | '+' :: rest => (1, rest)
    | _ => (1, cs)
  let ipr := leadingDigits sign.2
  let fpr :=
    match ipr.2 with
    | '.' :: rest2 => (leadingDigits rest2).1
    | _ => []
  if ipr.1 = [] ∧ fpr = [] then none
  else
    some (sign.1 * ((digitsToNat ipr.1 0 : ℚ) + (digitsToNat fpr 0 : ℚ) / (10 : ℚ) ^ fpr.length))

/-- `parseFloat` applied to a `JVal` (after string coercion); in this code it
only ever receives a string or `undefined`. -/
def jsParseFloatVal : JVal → Option ℚ
  | .jstr s => jsParseFloat s
  | .jnum q => some q
  | _ => none

/-- Field of an object value, `none` on anything that is not an object holding
the field. -/
def jresObjField (v : JVal) (name : String) : Option JVal :=
  match v with
  | .jobj fs => jobjLookup fs name
  | _ => none

/-- `member.person.name` — the expression evaluated by the member filter
callback of `DataMapper.mapMembers`. -/
def memberPersonName (m : JVal) : Except String JVal := do
  let p ← m.getField "person"
  p.getField "name"

/-! ## `DataMapper` (src/public/script.js lines 904-1075) -/

namespace DataMapper

/-- Embeds `DataMapper.parseCurrency` (src/public/script.js lines 963-978):
falsy values yield 0; for a string the code strips the first `R$`, removes all
dots, turns the first comma into a dot, trims and parses (`|| 0` turns a NaN
into 0); the `TypeError` thrown by `.replace` on any other truthy value is
caught and also yields 0. -/
def parseCurrency (value : JVal) : ℚ :=
  if !value.truthy then 0
  else
    match value with
    | .jstr s =>
      match jsParseFloat (jsTrim (jsReplaceFirst (jsRemoveDots (jsReplaceFirst s "R$" "")) "," ".")) with
      | some q => q
      | none => 0
    | _ => 0

/-- The member object built for one socio inside `DataMapper.mapMembers`. -/
def mkMember (socio : JVal) : Except String JVal := do
  let nome ← socio.getField "nome"
  let faixa ← socio.getField "faixa_etaria"
  let qual ← socio.getField "qualificacao_socio"
  let qualDesc ← qual.optField "descricao"
  let tipo ← socio.getField "tipo"
  let dataEntrada ← socio.getField "data_entrada"
  .ok (.jobj [
    ("person", .jobj [("name", nome.orElse .jnull), ("age", faixa.orElse .jnull)]),
    ("role", .jobj [("text", (qualDesc.orElse tipo).orElse (.jstr "Sócio"))]),
    ("since", dataEntrada)])

/-- Embeds `DataMapper.mapMembers` (src/public/script.js lines 980-993):
non-arrays give the empty list; each socio becomes a member object and the
trailing `.filter(member => member.person.name)` drops members whose name is
falsy. -/
def mapMembers (socios : JVal) : Except String JVal :=
  if !socios.truthy || !socios.isArray then .ok (.jarr [])
  else
    match socios with
    | .jarr xs => do
      let mapped ← jsArrayMapM mkMember xs
      let filtered ← jsArrayFilterM memberPersonName mapped
      .ok (.jarr filtered)
    | _ => .ok (.jarr [])

/-- Embeds `DataMapper.mapAddress` (src/public/script.js lines 995-1011). -/
def mapAddress (estabelecimento : JVal) : Except String JVal :=
  if !estabelecimento.truthy then .ok .jnull
  else do
    let tipoLog ← estabelecimento.getField "tipo_logradouro"
    let log ← estabelecimento.getField "logradouro"
    let numero ← estabelecimento.getField "numero"
    let compl ← estabelecimento.getField "complemento"
    let bairro ← estabelecimento.getField "bairro"
    let cidade ← estabelecimento.getField "cidade"
    let cidadeNome ← cidade.optField "nome"
    let estado ← estabelecimento.getField "estado"
    let estadoSigla ← estado.optField "sigla"
    let cep ← estabelecimento.getField "cep"
    let pais ← estabelecimento.getField "pais"
    let paisNome ← pais.optField "nome"
    .ok (.jobj [
      ("street", .jstr (jsTrim ((tipoLog.orElse (.jstr "")).jsToString ++ " "
        ++ (log.orElse (.jstr "")).jsToString))),
      ("number", numero), ("details", compl), ("district", bairro),
      ("city", cidadeNome), ("state", estadoSigla), ("zip", cep),
      ("country", paisNome), ("municipality", cidadeNome)])

/-- Embeds `DataMapper.mapPhones` (src/public/script.js lines 1013-1033): at
most one entry per (ddd, telefone) pair, both typed `LANDLINE`. -/
def mapPhones (estabelecimento : JVal) : Except String JVal := do
  let ddd1 ← estabelecimento.getField "ddd1"
  let tel1 ← estabelecimento.getField "telefone1"
  let ddd2 ← estabelecimento.getField "ddd2"
  let tel2 ← estabelecimento.getField "telefone2"
  let p1 : List JVal :=
    if ddd1.truthy && tel1.truthy then
      [.jobj [("area", ddd1), ("number", tel1), ("type", .jstr "LANDLINE")]]
    else []
  let p2 : List JVal :=
    if ddd2.truthy && tel2.truthy then
      [.jobj [("area", ddd2), ("number", tel2), ("type", .jstr "LANDLINE")]]
    else []
  .ok (.jarr (p1 ++ p2))

/-- Embeds `DataMapper.mapEmails` (src/public/script.js lines 1035-1044). -/
def mapEmails (estabelecimento : JVal) : Except String JVal := do
  let email ← estabelecimento.getField "email"
  if email.truthy then
    .ok (.jarr [.jobj [("address", email), ("ownership", .jstr "CORPORATE")]])
  else
    .ok (.jarr [])

/-- Embeds `DataMapper.mapActivity` (src/public/script.js lines 1046-1053). -/
def mapActivity (activity : JVal) : Except String JVal :=
  if !activity.truthy then .ok .jnull
  else do
    let i ← activity.getField "id"
    let d ← activity.getField "descricao"
    .ok (.jobj [("id", i), ("text", d)])

/-- Embeds `DataMapper.mapActivities` (src/public/script.js lines 1055-1062). -/
def mapActivities (activities : JVal) : Except String JVal :=
  if !activities.truthy || !activities.isArray then .ok (.jarr [])
  else
    match activities with
    | .jarr xs => do
      let ys ← jsArrayMapM (fun a => do
        let i ← a.getField "id"
        let d ← a.getField "descricao"
        .ok (JVal.jobj [("id", i), ("text", d)])) xs
      .ok (.jarr ys)
    | _ => .ok (.jarr [])

/-- Embeds `DataMapper.mapRegistrations` (src/public/script.js lines
1064-1074). -/
def mapRegistrations (inscricoes : JVal) : Except String JVal :=
  if !inscricoes.truthy || !inscricoes.isArray then .ok (.jarr [])
  else
    match inscricoes with
    | .jarr xs => do
      let ys ← jsArrayMapM (fun ie => do
        let num ← ie.getField "inscricao_estadual"
        let estado ← ie.getField "estado"
        let sigla ← estado.optField "sigla"
        let ativo ← ie.getField "ativo"
        .ok (JVal.jobj [
          ("type", .jobj [("id", .jnum 1), ("text", .jstr "Normal")]),
          ("number", num), ("state", sigla), ("enabled", ativo),
          ("status", .jobj [("text", if ativo.truthy then JVal.jstr "Ativa" else JVal.jstr "Inativa")])])) xs
      .ok (.jarr ys)
    | _ => .ok (.jarr [])

/-- The ternary `apiData.natureza_juridica ? {id, text} : null` of
`DataMapper.mapToFrontendStructure` (src/public/script.js lines 924-927). -/
def natureOf (natureza : JVal) : Except String JVal :=
  if natureza.truthy then do
    let i ← natureza.getField "id"
    let d ← natureza.getField "descricao"
    .ok (.jobj [("id", i), ("text", d)])
  else .ok .jnull

/-- The ternary `apiData.porte ? {text, acronym} : null` of
`DataMapper.mapToFrontendStructure` (src/public/script.js lines 928-931). -/
def sizeObjOf (porte : JVal) : Except String JVal :=
  if porte.truthy then do
    let d ← porte.getField "descricao"
    let i ← porte.getField "id"
    .ok (.jobj [("text", d), ("acronym", i)])
  else .ok .jnull

/-- Embeds `DataMapper.mapToFrontendStructure` (src/public/script.js lines
905-961), binding the pieces in the evaluation order of the object literal. -/
def mapToFrontendStructure (apiData : JVal) : Except String JVal := do
  let estRaw ← apiData.getField "estabelecimento"
  let estabelecimento := estRaw.orElse (.jobj [])
  let simplesRaw ← apiData.getField "simples"
  let simples := simplesRaw.orElse (.jobj [])
  let estCnpj ← estabelecimento.getField "cnpj"
  let cnpjRaiz ← apiData.getField "cnpj_raiz"
  let nomeFantasia ← estabelecimento.getField "nome_fantasia"
  let founded ← estabelecimento.getField "data_inicio_atividade"
  let updated ← apiData.getField "atualizado_em"
  let situacao ← estabelecimento.getField "situacao_cadastral"
  let statusDate ← estabelecimento.getField "data_situacao_cadastral"
  let tipo ← estabelecimento.getField "tipo"
  let razao ← apiData.getField "razao_social"
  let natureza ← apiData.getField "natureza_juridica"
  let nature ← natureOf natureza
  let porte ← apiData.getField "porte"
  let size ← sizeObjOf porte
  let capital ← apiData.getField "capital_social"
  let simplesFlag ← simples.getField "simples"
  let simplesSince ← simples.getField "data_opcao_simples"
  let meiFlag ← simples.getField "mei"
  let meiSince ← simples.getField "data_opcao_mei"
  let socios ← apiData.getField "socios"
  let members ← mapMembers socios
  let address ← mapAddress estabelecimento
  let phones ← mapPhones estabelecimento
  let emails ← mapEmails estabelecimento
  let atividadePrincipal ← estabelecimento.getField "atividade_principal"
  let mainActivity ← mapActivity atividadePrincipal
  let atividadesSecundarias ← estabelecimento.getField "atividades_secundarias"
  let sideActivities ← mapActivities atividadesSecundarias
  let inscricoes ← estabelecimento.getField "inscricoes_estaduais"
  let registrations ← mapRegistrations inscricoes
  .ok (.jobj [
    ("taxId", estCnpj.orElse cnpjRaiz),
    ("alias", nomeFantasia.orElse .jnull),
    ("founded", founded),
    ("updated", updated),
    ("status", .jobj [("text", situacao.orElse .jnull)]),
    ("statusDate", statusDate),
    ("head", .jbool (tipo.strictEqStr "MATRIZ")),
    ("company", .jobj [
      ("name", razao.orElse .jnull),
      ("nature", nature),
      ("size", size),
      ("equity", .jnum (parseCurrency capital)),
      ("simples", .jobj [("optant", .jbool (simplesFlag.strictEqStr "SIM")), ("since", simplesSince)]),
      ("simei", .jobj [("optant", .jbool (meiFlag.strictEqStr "SIM")), ("since", meiSince)]),
      ("members", members)]),
    ("address", address),
    ("phones", phones),
    ("emails", emails),
    ("mainActivity", mainActivity),
    ("sideActivities", sideActivities),
    ("registrations", registrations),
    ("suframa", .jarr [])])

end DataMapper

/-! ## `mapDataToFrontendStructure` (src/api/cnpj.js lines 96-221) -/

/-- The `members` subexpression of `mapDataToFrontendStructure` (src/api/cnpj.js
lines 139-149): `apiData.socios?.map(socio => ...) || []`. There is no filter:
a socio without a name stays in the list under the placeholder name
`"Não informado"`. -/
def cnpjJsMembers (socios : JVal) : Except String JVal := do
  let mapped ← jsOptMapCall socios (fun socio => do
    let nome ← socio.getField "nome"
    let faixa ← socio.getField "faixa_etaria"
    let qual ← socio.getField "qualificacao_socio"
    let qualDesc ← qual.optField "descricao"
    let tipo ← socio.getField "tipo"
    let dataEntrada ← socio.getField "data_entrada"
    .ok (.jobj [
      ("person", .jobj [("name", nome.orElse (.jstr "Não informado")),
        ("age", faixa.orElse (.jstr "Não informada"))]),
      ("role", .jobj [("text", (qualDesc.orElse tipo).orElse (.jstr "Sócio"))]),
      ("since", dataEntrada)]))
  .ok (mapped.orElse (.jarr []))

/-- The `equity` subexpression of `mapDataToFrontendStructure` (src/api/cnpj.js
lines 123-129):
`parseFloat(capital_social?.replace("R$","")?.replace(".","")?.replace(",",".")) || 0`.
The optional chain only guards nullish values, so when `capital_social` is a
number the first `.replace` call itself throws a `TypeError`. Each string
pattern replaces only the first occurrence. -/
def cnpjJsEquity (capital : JVal) : Except String JVal := do
  let s1 ← jsOptReplaceCall capital "R$" ""
  let s2 ← jsOptReplaceCall s1 "." ""
  let s3 ← jsOptReplaceCall s2 "," "."
  match jsParseFloatVal s3 with
  | some q => .ok (.jnum q)
  | none => .ok (.jnum 0)

/-- The `phones` subexpression of `mapDataToFrontendStructure` (src/api/cnpj.js
lines 168-187): the same two conditional `LANDLINE` entries as the client-side
`DataMapper.mapPhones`. -/
def cnpjJsPhones (estabelecimento : JVal) : Except String JVal := do
  let ddd1 ← estabelecimento.getField "ddd1"
  let tel1 ← estabelecimento.getField "telefone1"
  let ddd2 ← estabelecimento.getField "ddd2"
  let tel2 ← estabelecimento.getField "telefone2"
  let p1 : List JVal :=
    if ddd1.truthy && tel1.truthy then
      [.jobj [("area", ddd1), ("number", tel1), ("type", .jstr "LANDLINE")]]
    else []
  let p2 : List JVal :=
    if ddd2.truthy && tel2.truthy then
      [.jobj [("area", ddd2), ("number", tel2), ("type", .jstr "LANDLINE")]]
    else []
  .ok (.jarr (p1 ++ p2))

/-- Embeds `mapDataToFrontendStructure` (src/api/cnpj.js lines 96-221), binding
the pieces in the evaluation order of the object literal. Unlike the
client-side `DataMapper` copy it defaults text fields to `"Não informado"`,
always builds `nature`, `size` and `mainActivity` objects, keeps socios
without a name, and parses `capital_social` through an optional chain that
throws on non-string truthy values. -/
def mapDataToFrontendStructure (apiData : JVal) : Except String JVal := do
  let estRaw ← apiData.getField "estabelecimento"
  let estabelecimento := estRaw.orElse (.jobj [])
  let simplesRaw ← apiData.getField "simples"
  let simples := simplesRaw.orElse (.jobj [])
  let estCnpj ← estabelecimento.getField "cnpj"
  let cnpjRaiz ← apiData.getField "cnpj_raiz"
  let nomeFantasia ← estabelecimento.getField "nome_fantasia"
  let founded ← estabelecimento.getField "data_inicio_atividade"
  let updated ← apiData.getField "atualizado_em"
  let situacao ← estabelecimento.getField "situacao_cadastral"
  let statusDate ← estabelecimento.getField "data_situacao_cadastral"
  let tipo ← estabelecimento.getField "tipo"
  let razao ← apiData.getField "razao_social"
  let natureza ← apiData.getField "natureza_juridica"
  let natId ← natureza.optField "id"
  let natDesc ← natureza.optField "descricao"
  let porte ← apiData.getField "porte"
  let porteDesc ← porte.optField "descricao"
  let porteId ← porte.optField "id"
  let capital ← apiData.getField "capital_social"
  let equity ← cnpjJsEquity capital
  let simplesFlag ← simples.getField "simples"
  let simplesSince ← simples.getField "data_opcao_simples"
  let meiFlag ← simples.getField "mei"
  let meiSince ← simples.getField "data_opcao_mei"
  let socios ← apiData.getField "socios"
  let members ← cnpjJsMembers socios
  let tipoLog ← estabelecimento.getField "tipo_logradouro"
  let log ← estabelecimento.getField "logradouro"
  let numero ← estabelecimento.getField "numero"
  let compl ← estabelecimento.getField "complemento"
  let bairro ← estabelecimento.getField "bairro"
  let cidade ← estabelecimento.getField "cidade"
  let cidadeNome ← cidade.optField "nome"
  let estado ← estabelecimento.getField "estado"
  let estadoSigla ← estado.optField "sigla"
  let cep ← estabelecimento.getField "cep"
  let pais ← estabelecimento.getField "pais"
  let paisNome ← pais.optField "nome"
  let phones ← cnpjJsPhones estabelecimento
  let email ← estabelecimento.getField "email"
  let atividadePrincipal ← estabelecimento.getField "atividade_principal"
  let mainId ← atividadePrincipal.optField "id"
  let mainDesc ← atividadePrincipal.optField "descricao"
  let atividadesSecundarias ← estabelecimento.getField "atividades_secundarias"
  let sideActs ← jsOptMapCall atividadesSecundarias (fun a => do
    let i ← a.getField "id"
    let d ← a.getField "descricao"
    .ok (JVal.jobj [("id", i), ("text", d)]))
  let inscricoes ← estabelecimento.getField "inscricoes_estaduais"
  let regs ← jsOptMapCall inscricoes (fun ie => do
    let num ← ie.getField "inscricao_estadual"
    let estado2 ← ie.getField "estado"
    let sigla ← estado2.optField "sigla"
    let ativo ← ie.getField "ativo"
    .ok (JVal.jobj [
      ("type", .jobj [("id", .jnum 1), ("text", .jstr "Normal")]),
      ("number", num), ("state", sigla), ("enabled", ativo),
      ("status", .jobj [("text", if ativo.truthy then JVal.jstr "Ativa" else JVal.jstr "Inativa")])]))
  .ok (.jobj [
    ("taxId", estCnpj.orElse cnpjRaiz),
    ("alias", nomeFantasia.orElse (.jstr "Não informado")),
    ("founded", founded),
    ("updated", updated),
    ("status", .jobj [("text", situacao.orElse (.jstr "Não informado"))]),
    ("statusDate", statusDate),
    ("head", .jbool (tipo.strictEqStr "MATRIZ")),
    ("company", .jobj [
      ("name", razao.orElse (.jstr "Não informado")),
      ("nature", .jobj [("id", natId), ("text", natDesc)]),
      ("size", .jobj [("text", porteDesc), ("acronym", porteId)]),
      ("equity", equity),
      ("simples", .jobj [("optant", .jbool (simplesFlag.strictEqStr "SIM")), ("since", simplesSince)]),
      ("simei", .jobj [("optant", .jbool (meiFlag.strictEqStr "SIM")), ("since", meiSince)]),
      ("members", members)]),
    ("address", .jobj [
      ("street", .jstr (jsTrim ((tipoLog.orElse (.jstr "")).jsToString ++ " "
        ++ (log.orElse (.jstr "")).jsToString))),
      ("number", numero), ("details", compl), ("district", bairro),
      ("city", cidadeNome), ("state", estadoSigla), ("zip", cep),
      ("country", paisNome), ("municipality", cidadeNome)]),
    ("phones", phones),
    ("emails", if email.truthy then JVal.jarr [.jobj [("address", email), ("ownership", .jstr "CORPORATE")]] else .jarr []),
    ("mainActivity", .jobj [("id", mainId), ("text", mainDesc)]),
    ("sideActivities", sideActs.orElse (.jarr [])),
    ("registrations", regs.orElse (.jarr [])),
    ("suframa", .jarr [])])

/-! Record-shape lemmas: what an `.ok` mapper result looks like. -/

/-- Two-level object field access. -/
def jresObjField2 (v : JVal) (n1 n2 : String) : Option JVal :=
  match jresObjField v n1 with
  | some c => jresObjField c n2
  | none => none

/-- The `phones` list of a mapped record. -/
def phonesOfResult (r : Except String JVal) : Option (List JVal) :=
  match r with
  | .ok v =>
    match jresObjField v "phones" with
    | some (.jarr l) => some l
    | _ => none
  | .error _ => none

/-- The `company.members` list of a mapped record. -/
def membersOfResult (r : Except String JVal) : Option (List JVal) :=
  match r with
  | .ok v =>
    match jresObjField2 v "company" "members" with
    | some (.jarr l) => some l
    | _ => none
  | .error _ => none

/-! ## HTTP handler models -/

/-- JS `String.prototype.includes`: some suffix of `s` starts with `sub`. -/
def jsIncludes (s sub : String) : Bool := go sub.data s.data
where
  go (pat : List Char) : List Char → Bool
    | [] => pat.isPrefixOf []
    | c :: cs => pat.isPrefixOf (c :: cs) || go pat cs

/-- A JSON response body: a field the emitted object literal omits is `none`. -/
structure HBody where
  error : Bool
  message : Option String
  data : Option JVal
  cached : Option Bool
  details : Option String

/-- A handler response: `res.status(s).json(body)`, or `res.status(s).end()`
with no body. -/
structure HResponse where
  status : Int
  body : Option HBody

def HResponse.cachedField (r : HResponse) : Option Bool :=
  match r.body with
  | some b => b.cached
  | none => none

def HResponse.dataField (r : HResponse) : Option JVal :=
  match r.body with
  | some b => b.data
  | none => none

def HResponse.errorFlag (r : HResponse) : Option Bool :=
  match r.body with
  | some b => some b.error
  | none => none

/-- Outcome of the `fetch` call inside `ExternalAPIClient.fetchCNPJData`: a
parsed JSON body on HTTP success, a non-ok HTTP status with its body text, an
abort fired by the `TIMEOUT_MS` timer through the `AbortController`, or any
other rejection (network failure etc.). -/
inductive FetchOutcome where
  | success (body : JVal)
  | httpError (status : Int) (body : String)
  | aborted
  | failure (msg : String)

/-- Embeds `ExternalAPIClient.fetchCNPJData` (src/public/script.js lines
860-898) as a function of the fetch outcome. The Bool records that
`clearTimeout` ran on that exit path: the source clears the timer right after
the `await` succeeds and again at the top of its `catch` block, so every exit
path clears it. An `AbortError` — the timed-out call cancelled through the
abort signal — is rethrown as the Timeout error; a non-ok HTTP status throws
the status-bearing message. -/
def ExternalAPIClient.fetchCNPJData : FetchOutcome → Except String JVal × Bool
  | .success b => (.ok b, true)
  | .httpError status body =>
    (.error ("API externa retornou status " ++ toString status ++ ": " ++ body), true)
  | .aborted => (.error "Timeout na consulta da API externa", true)
  | .failure msg => (.error msg, true)

/-- The `catch` block of the script.js handler (lines 1174-1200): map the
thrown message onto an HTTP status by keyword, include the raw message as
`details` only in development mode. -/
def handlerCatch (msg : String) (devMode : Bool) : HResponse :=
  let status : Int :=
    if jsIncludes msg "Timeout" then 408
    else if jsIncludes msg "404" || jsIncludes msg "não encontrado" then 404
    else if jsIncludes msg "429" then 429
    else if jsIncludes msg "Failed to fetch" || jsIncludes msg "Network" then 503
    else 500
  let errorMessage :=
    if jsIncludes msg "Timeout" then "Timeout na consulta externa"
    else if jsIncludes msg "404" || jsIncludes msg "não encontrado" then "Empresa não encontrada"
    else if jsIncludes msg "429" then "API externa com limite excedido"
    else if jsIncludes msg "Failed to fetch" || jsIncludes msg "Network" then "Serviço temporariamente indisponível"
    else "Erro interno do servidor"
  { status := status,
    body := some ⟨true, some errorMessage, none, none, if devMode then some msg else none⟩ }

/-- The two global in-memory maps the script.js handler mutates. -/
structure ServerState where
  requestCache : List (String × CacheEntry JVal)
  rateLimitMap : List (String × Int)

/-- Embeds the script.js request handler (src/public/script.js lines
1080-1201): CORS/security headers (not modelled — they carry no data), the
OPTIONS short-circuit, the method check, rate limiting, the `cnpj` query
parameter check (`!cnpj` also rejects the empty string), sanitize + validate,
cache lookup (stored records are always objects, hence truthy), external
fetch, mapping, the `!mappedData.taxId` guard, cache store, and the success
response with its `cached` flag. `clientIP` stands for
`SecurityMiddleware.getClientIP(req)` and `fetchOutcome` for what the single
`fetch` of this request would do. -/
def scriptHandler (method : String) (cnpjQuery : Option String) (clientIP : String)
    (now : Int) (fetchOutcome : FetchOutcome) (devMode : Bool) (st : ServerState) :
    HResponse × ServerState :=
  if method = "OPTIONS" then ({ status := 200, body := none }, st)
  else if method ≠ "GET" then
    ({ status := 405, body := some ⟨true, some "Método não permitido", none, none, none⟩ }, st)
  else
    let rl := SecurityMiddleware.checkRateLimit clientIP now st.rateLimitMap
    let st1 : ServerState := { st with rateLimitMap := rl.2 }
    if rl.1 = false then
      (⟨429, some ⟨true, some "Limite de requisições excedido. Tente novamente em 1 minuto.",
        none, none, none⟩⟩, st1)
    else
      let cnpj := cnpjQuery.getD ""
      if cnpj = "" then
        ({ status := 400, body := some ⟨true, some "CNPJ não informado", none, none, none⟩ }, st1)
      else
        match CNPJValidatorServer.validate (SecurityMiddleware.sanitizeCNPJ cnpj) with
        | .invalid err =>
          ({ status := 400, body := some ⟨true, some err, none, none, none⟩ }, st1)
        | .valid cleaned =>
          let cg := CacheManager.get st1.requestCache cleaned now
          let st2 : ServerState := { st1 with requestCache := cg.2 }
          match cg.1 with
          | some cachedData =>
            ({ status := 200, body := some ⟨false, none, some cachedData, some true, none⟩ }, st2)
          | none =>
            match (ExternalAPIClient.fetchCNPJData fetchOutcome).1 with
            | .error msg => (handlerCatch msg devMode, st2)
            | .ok apiData =>
              match DataMapper.mapToFrontendStructure apiData with
              | .error msg => (handlerCatch msg devMode, st2)
              | .ok mapped =>
                if (match jresObjField mapped "taxId" with
                    | some v => v.truthy
                    | none => false) = false then
                  (handlerCatch "Dados inválidos retornados pela API" devMode, st2)
                else
                  ({ status := 200, body := some ⟨false, none, some mapped, some false, none⟩ },
                    { st2 with requestCache := CacheManager.set st2.requestCache cleaned mapped now })

/-- Outcome of the `fetch` call in the api/cnpj.js handler (which has no
timeout controller). -/
inductive CnpjFetchOutcome where
  | success (body : JVal)
  | httpError (status : Int) (body : String)
  | failure (msg : String)

/-- Embeds the api/cnpj.js request handler (src/api/cnpj.js lines 1-93):
OPTIONS short-circuit, method check, `cnpj` parameter check, 14-digit length
check, upstream status mapping (404, 429, passthrough otherwise), mapping,
and a success response `{error: false, data}` with NO `cached` field; a
thrown error (including a mapper `TypeError`) yields 500. -/
def cnpjHandler (method : String) (cnpjQuery : Option String)
    (fetchOutcome : CnpjFetchOutcome) : HResponse :=
  if method = "OPTIONS" then { status := 200, body := none }
  else if method ≠ "GET" then
    { status := 405, body := some ⟨true, some "Método não permitido", none, none, none⟩ }
  else
    let cnpj := cnpjQuery.getD ""
    if cnpj = "" then
      { status := 400, body := some ⟨true, some "CNPJ não informado", none, none, none⟩ }
    else
      let cnpjLimpo := cleanDigits cnpj
      if cnpjLimpo.length ≠ 14 then
        { status := 400, body := some ⟨true, some "CNPJ deve conter 14 dígitos", none, none, none⟩ }
      else
        match fetchOutcome with
        | .httpError s _ =>
          if s = 404 then
            { status := 404, body := some ⟨true, some "Empresa não encontrada", none, none, none⟩ }
          else if s = 429 then
            ⟨429, some ⟨true, some "Limite de requisições excedido. Tente novamente mais tarde.",
              none, none, none⟩⟩
          else
            ⟨s, some ⟨true, some ("Erro na API: " ++ toString s), none, none, none⟩⟩
        | .failure msg =>
          ⟨500, some ⟨true, some ("Erro interno do servidor: " ++ msg), none, none, none⟩⟩
        | .success apiData =>
          match mapDataToFrontendStructure apiData with
          | .error msg =>
            ⟨500, some ⟨true, some ("Erro interno do servidor: " ++ msg), none, none, none⟩⟩
          | .ok mapped =>
            { status := 200, body := some ⟨false, none, some mapped, none, none⟩ }

/-- A minimal successful upstream payload for the concrete handler scenarios. -/
def demoApiData : JVal := .jobj [("estabelecimento", .jobj [("cnpj", .jstr "11222333000181")])]

/-- First scripted call of the C7 scenario: fresh state, mocked upstream
success. -/
def c7Call1 : HResponse × ServerState :=
  scriptHandler "GET" (some "11222333000181") "203.0.113.7" 1000000 (.success demoApiData)
    false ⟨[], []⟩

/-- Immediate repeat of the same request against the state the first call
left behind. -/
def c7Call2 : HResponse × ServerState :=
  scriptHandler "GET" (some "11222333000181") "203.0.113.7" 1000001 (.success demoApiData)
    false c7Call1.2

/-! ## Theorems -/

theorem cnpjWeightedSum_eq_zipWith (ds : List Nat) (pos : Nat) :
    cnpjWeightedSum ds pos = (List.zipWith (· * ·) ds (cnpjWeightSeq pos ds.length)).sum := by
  induction ds generalizing pos with
  | nil => simp [cnpjWeightedSum, cnpjWeightSeq]
  | cons d ds ih => simp [cnpjWeightedSum, cnpjWeightSeq, ih]

theorem cnpjWeightSeq_five : cnpjWeightSeq 5 12 = specWeights1 := by decide

theorem cnpjWeightSeq_six : cnpjWeightSeq 6 13 = specWeights2 := by decide

theorem headD_drop_eq_getD (l : List Nat) (n : Nat) :
    (l.drop n).headD 0 = l.getD n 0 := by
  induction l generalizing n with
  | nil => cases n <;> simp
  | cons a l ih =>
    cases n with
    | zero => simp
    | succ n => simp only [List.drop_succ_cons, List.getD_cons_succ]; exact ih n

theorem jsAllSameDigits_eq_all (ds : List Nat) (h : ds.length = 14) :
    jsAllSameDigits ds = ds.all (· = ds.headD 0) := by
  cases ds with
  | nil => simp at h
  | cons d rest =>
    have hne : rest ≠ [] := by
      intro he; rw [he] at h; simp at h
    simp [jsAllSameDigits, hne]

theorem validateCNPJ_eq_true_iff (s : String) :
    validateCNPJ s = true ↔ cnpjChecksOut s := by
  unfold validateCNPJ cnpjChecksOut
  dsimp only
  constructor
  · intro h
    split_ifs at h with hc0 hc1 hc2 hc3
    exact ⟨not_ne_iff.mp hc0, eq_false_of_ne_true hc1, not_ne_iff.mp hc2, not_ne_iff.mp hc3⟩
  · rintro ⟨hlen, hsame, hd1, hd2⟩
    rw [if_neg (not_ne_iff.mpr hlen), if_neg (by simp [hsame]),
      if_neg (not_ne_iff.mpr hd1), if_neg (not_ne_iff.mpr hd2)]

theorem serverValidate_isValid_iff (s : String) :
    (CNPJValidatorServer.validate s).isValid = true ↔ cnpjChecksOut s := by
  unfold CNPJValidatorServer.validate cnpjChecksOut
  dsimp only
  constructor
  · intro h
    split_ifs at h with hc0 hc1 hc2 hc3
    · exact absurd h (by simp [SValidation.isValid])
    · exact absurd h (by simp [SValidation.isValid])
    · exact absurd h (by simp [SValidation.isValid])
    · exact absurd h (by simp [SValidation.isValid])
    · exact ⟨not_ne_iff.mp hc0, eq_false_of_ne_true hc1, not_ne_iff.mp hc2, not_ne_iff.mp hc3⟩
  · rintro ⟨hlen, hsame, hd1, hd2⟩
    rw [if_neg (not_ne_iff.mpr hlen), if_neg (by simp [hsame]),
      if_neg (not_ne_iff.mpr hd1), if_neg (not_ne_iff.mpr hd2)]
    rfl

/-- C1: For every input string, the CNPJ validator accepts exactly when: after
stripping non-digits the result has exactly 14 digits, the 14 digits are not
all identical, and both check digits satisfy the weighted mod-11 rule with the
classic weight sequences; in particular "11.222.333/0001-81" validates true and
"11.222.333/0001-82" validates false. -/
theorem C1_validateCNPJ_matches_spec :
    (∀ s : String, validateCNPJ s = true ↔ specCNPJAccepts s = true) ∧
      validateCNPJ "11.222.333/0001-81" = true ∧
      validateCNPJ "11.222.333/0001-82" = false := by
  refine ⟨fun s => ?_, by decide, by decide⟩
  rw [validateCNPJ_eq_true_iff]
  unfold specCNPJAccepts cnpjChecksOut
  dsimp only
  simp only [Bool.and_eq_true, decide_eq_true_eq, Bool.not_eq_true']
  constructor
  · rintro ⟨hlen, hsame, hd1, hd2⟩
    have htake12 : ((digitVals s).take 12).length = 12 := by simp [hlen]
    have htake13 : ((digitVals s).take 13).length = 13 := by simp [hlen]
    rw [cnpjWeightedSum_eq_zipWith, htake12, cnpjWeightSeq_five] at hd1
    rw [cnpjWeightedSum_eq_zipWith, htake13, cnpjWeightSeq_six] at hd2
    rw [headD_drop_eq_getD] at hd1 hd2
    exact ⟨⟨⟨hlen, by rw [← jsAllSameDigits_eq_all _ hlen]; exact hsame⟩, hd1.symm⟩, hd2.symm⟩
  · rintro ⟨⟨⟨hlen, hsame⟩, hd1⟩, hd2⟩
    have htake12 : ((digitVals s).take 12).length = 12 := by simp [hlen]
    have htake13 : ((digitVals s).take 13).length = 13 := by simp [hlen]
    refine ⟨hlen, ?_, ?_, ?_⟩
    · rw [jsAllSameDigits_eq_all _ hlen]; exact hsame
    · rw [cnpjWeightedSum_eq_zipWith, htake12, cnpjWeightSeq_five, headD_drop_eq_getD]
      exact hd1.symm
    · rw [cnpjWeightedSum_eq_zipWith, htake13, cnpjWeightSeq_six, headD_drop_eq_getD]
      exact hd2.symm

/-- C2: for every input string, the client-side `validateCNPJ` accepts exactly
when the server-side `CNPJValidatorServer.validate` returns `isValid: true`:
the two duplicated copies of the validation logic agree on acceptance. -/
theorem C2_client_server_validators_agree :
    ∀ s : String, (CNPJValidatorServer.validate s).isValid = validateCNPJ s := by
  intro s
  by_cases h : cnpjChecksOut s
  · rw [(serverValidate_isValid_iff s).mpr h, ((validateCNPJ_eq_true_iff s).mpr h).symm]
  · have h1 : validateCNPJ s ≠ true := fun hv => h ((validateCNPJ_eq_true_iff s).mp hv)
    have h2 : (CNPJValidatorServer.validate s).isValid ≠ true :=
      fun hv => h ((serverValidate_isValid_iff s).mp hv)
    rw [eq_false_of_ne_true h1, eq_false_of_ne_true h2]

/-! Map lemmas for the cache and rate-limit proofs. -/

theorem jsMapGet_set_self {α : Type} (m : List (String × α)) (k : String) (v : α) :
    jsMapGet (jsMapSet m k v) k = some v := by
  induction m with
  | nil => simp [jsMapSet, jsMapGet, List.find?]
  | cons e es ih =>
    by_cases h : e.1 = k
    · simp [jsMapSet, jsMapGet, h, List.find?]
    · simpa [jsMapSet, jsMapGet, h, List.find?] using ih

theorem jsMapGet_none_of_not_mem {α : Type} (m : List (String × α)) (k : String)
    (h : k ∉ m.map Prod.fst) : jsMapGet m k = none := by
  induction m with
  | nil => rfl
  | cons e es ih =>
    simp only [List.map_cons, List.mem_cons] at h
    push_neg at h
    have h1 : ¬ e.1 = k := fun he => h.1 he.symm
    have hstep : jsMapGet (e :: es) k = jsMapGet es k := by
      simp [jsMapGet, List.find?, h1]
    rw [hstep]
    exact ih h.2

theorem mem_keys_jsMapSet {α : Type} (m : List (String × α)) (k a : String) (v : α) :
    a ∈ (jsMapSet m k v).map Prod.fst ↔ a ∈ m.map Prod.fst ∨ a = k := by
  induction m with
  | nil => simp [jsMapSet]
  | cons e es ih =>
    by_cases h : e.1 = k
    · subst h
      simp [jsMapSet]
      tauto
    · simp [jsMapSet, h, ih]
      tauto

theorem nodup_keys_jsMapSet {α : Type} (m : List (String × α)) (k : String) (v : α)
    (h : (m.map Prod.fst).Nodup) : ((jsMapSet m k v).map Prod.fst).Nodup := by
  induction m with
  | nil => simp [jsMapSet]
  | cons e es ih =>
    simp only [List.map_cons, List.nodup_cons] at h
    by_cases he : e.1 = k
    · subst he
      simpa [jsMapSet, List.nodup_cons] using h
    · rw [show jsMapSet (e :: es) k v = e :: jsMapSet es k v from by simp [jsMapSet, he]]
      simp only [List.map_cons, List.nodup_cons]
      refine ⟨?_, ih h.2⟩
      rw [mem_keys_jsMapSet]
      rintro (hmem | hk)
      · exact h.1 hmem
      · exact he hk

theorem jsMapGet_delete_self {α : Type} (m : List (String × α)) (k : String)
    (h : (m.map Prod.fst).Nodup) : jsMapGet (jsMapDelete m k) k = none := by
  induction m with
  | nil => rfl
  | cons e es ih =>
    simp only [List.map_cons, List.nodup_cons] at h
    by_cases he : e.1 = k
    · subst he
      rw [show jsMapDelete (e :: es) e.1 = es from by simp [jsMapDelete, List.eraseP_cons]]
      exact jsMapGet_none_of_not_mem es e.1 h.1
    · rw [show jsMapDelete (e :: es) k = e :: jsMapDelete es k from by
        simp [jsMapDelete, List.eraseP_cons, he]]
      rw [show jsMapGet (e :: jsMapDelete es k) k = jsMapGet (jsMapDelete es k) k from by
        simp [jsMapGet, List.find?, he]]
      exact ih h.2

/-- C6: a cache `set` followed by a `get` strictly less than the 5-minute TTL
later returns the stored value (leaving the store untouched); a `get` at or
after the TTL returns `null` and removes the entry from the store. -/
theorem C6_cache_set_get_ttl {α : Type} (st : List (String × CacheEntry α))
    (k : String) (v : α) (t tr : Int) (hnodup : (st.map Prod.fst).Nodup) :
    (tr - t < CACHE_TTL →
      CacheManager.get (CacheManager.set st k v t) k tr = (some v, CacheManager.set st k v t)) ∧
    (CACHE_TTL ≤ tr - t →
      (CacheManager.get (CacheManager.set st k v t) k tr).1 = none ∧
        jsMapGet (CacheManager.get (CacheManager.set st k v t) k tr).2 k = none) := by
  have hget : jsMapGet (CacheManager.set st k v t) k = some ⟨v, t⟩ :=
    jsMapGet_set_self st k ⟨v, t⟩
  constructor
  · intro hfresh
    simp [CacheManager.get, hget, hfresh]
  · intro hexp
    have hnotfresh : ¬ tr - t < CACHE_TTL := not_lt.mpr hexp
    refine ⟨by simp [CacheManager.get, hget, hnotfresh], ?_⟩
    simp only [CacheManager.get, hget, hnotfresh, if_false]
    exact jsMapGet_delete_self _ k (nodup_keys_jsMapSet st k ⟨v, t⟩ hnodup)

/-- Witness for C6 at a concrete store, key, value and pair of read times. -/
theorem C6_cache_set_get_ttl_witness :
    (CacheManager.get (CacheManager.set ([] : List (String × CacheEntry ℚ)) "11222333000181" 7 0)
        "11222333000181" 299999 =
      (some 7, CacheManager.set ([] : List (String × CacheEntry ℚ)) "11222333000181" 7 0)) ∧
    ((CacheManager.get (CacheManager.set ([] : List (String × CacheEntry ℚ)) "11222333000181" 7 0)
        "11222333000181" 300000).1 = none ∧
      jsMapGet (CacheManager.get (CacheManager.set ([] : List (String × CacheEntry ℚ)) "11222333000181" 7 0)
        "11222333000181" 300000).2 "11222333000181" = none) :=
  ⟨(C6_cache_set_get_ttl [] "11222333000181" 7 0 299999 (by simp)).1 (by decide),
    (C6_cache_set_get_ttl [] "11222333000181" 7 0 300000 (by simp)).2 (by decide)⟩

/-! Rate-limiter proofs (claim C5). -/

theorem listIsPrefixOf_append (l t : List Char) : l.isPrefixOf (l ++ t) = true := by
  induction l with
  | nil => simp [List.isPrefixOf]
  | cons c cs ih => simp [List.isPrefixOf, ih]

@[simp]
theorem jsStartsWith_append (a b : String) : jsStartsWith (a ++ b) a = true := by
  unfold jsStartsWith
  rw [String.data_append]
  exact listIsPrefixOf_append a.data b.data

@[simp]
theorem str_append_right_inj (a b c : String) : (a ++ b = a ++ c) ↔ b = c := by
  constructor
  · intro h
    have hd := congrArg String.data h
    rw [String.data_append, String.data_append] at hd
    cases b with
    | mk db =>
      cases c with
      | mk dc => exact congrArg String.mk (List.append_cancel_left hd)
  · intro h
    rw [h]

/-- C5 counterexample: eleven calls in the same millisecond all succeed (each
recorded call reuses the key `ip + "-" + now`, so the window never fills and
the eleventh call within the window is NOT rejected), and a blocked call does
not leave the rate-limit state unchanged when an expired entry is present (the
purge still removes it). -/
theorem C5_counterexample_same_millisecond :
    (rlRun "client" (List.replicate 11 100000) []).1 = List.replicate 11 true ∧
      (SecurityMiddleware.checkRateLimit "c" 100000 rlDemoMap).1 = false ∧
      (SecurityMiddleware.checkRateLimit "c" 100000 rlDemoMap).2 ≠ rlDemoMap := by
  decide

/-- C5 (amended): for every client identifier, on a schedule of calls at
pairwise-distinct millisecond timestamps — ten inside one 60-second window, an
eleventh still inside that window, then one after the window has fully
passed — the first `MAX_REQUESTS_PER_MINUTE` (10) calls succeed, the eleventh
is rejected and records nothing (the map after it is the map the ten successes
built), and the post-window call succeeds again; in general a rejected call
returns the purged map with no new entry, so a blocked call changes the state
only by purging entries older than the window. -/
theorem C5_amended_rate_limit_window (ip : String) :
    (rlRun ip rlSchedule []).1
        = [true, true, true, true, true, true, true, true, true, true, false, true] ∧
      (rlRun ip (rlSchedule.take 11) []).2 = (rlRun ip (rlSchedule.take 10) []).2 ∧
      (∀ now m, (SecurityMiddleware.checkRateLimit ip now m).1 = false →
        (SecurityMiddleware.checkRateLimit ip now m).2
          = m.filter (fun e => !decide (e.2 < now - 60000))) := by
  refine ⟨?steps, ?blocked, ?general⟩
  case general =>
    intro now m h
    unfold SecurityMiddleware.checkRateLimit at h ⊢
    dsimp only at h ⊢
    split_ifs at h ⊢ with hc
    rfl
  all_goals
    have h0 : SecurityMiddleware.checkRateLimit ip 100000 ([] : List (String × Int)) =
        (true, [(ip ++ "-100000", 100000)]) := by
      unfold SecurityMiddleware.checkRateLimit
      dsimp only
      simp [jsMapSet, MAX_REQUESTS_PER_MINUTE, (show (("-" ++ toString (100000 : Int)) : String) = "-100000" from rfl)]
    have h1 : SecurityMiddleware.checkRateLimit ip 100001 [(ip ++ "-100000", 100000)] =
        (true, [(ip ++ "-100000", 100000), (ip ++ "-100001", 100001)]) := by
      unfold SecurityMiddleware.checkRateLimit
      dsimp only
      simp [jsMapSet, MAX_REQUESTS_PER_MINUTE, (show (("-" ++ toString (100001 : Int)) : String) = "-100001" from rfl)]
    have h2 : SecurityMiddleware.checkRateLimit ip 100002 [(ip ++ "-100000", 100000), (ip ++ "-100001", 100001)] =
        (true, [(ip ++ "-100000", 100000), (ip ++ "-100001", 100001), (ip ++ "-100002", 100002)]) := by
      unfold SecurityMiddleware.checkRateLimit
      dsimp only
      simp [jsMapSet, MAX_REQUESTS_PER_MINUTE, (show (("-" ++ toString (100002 : Int)) : String) = "-100002" from rfl)]
    have h3 : SecurityMiddleware.checkRateLimit ip 100003 [(ip ++ "-100000", 100000), (ip ++ "-100001", 100001), (ip ++ "-100002", 100002)] =
        (true, [(ip ++ "-100000", 100000), (ip ++ "-100001", 100001), (ip ++ "-100002", 100002), (ip ++ "-100003", 100003)]) := by
      unfold SecurityMiddleware.checkRateLimit
      dsimp only
      simp [jsMapSet, MAX_REQUESTS_PER_MINUTE, (show (("-" ++ toString (100003 : Int)) : String) = "-100003" from rfl)]
    have h4 : SecurityMiddleware.checkRateLimit ip 100004 [(ip ++ "-100000", 100000), (ip ++ "-100001", 100001), (ip ++ "-100002", 100002), (ip ++ "-100003", 100003)] =
        (true, [(ip ++ "-100000", 100000), (ip ++ "-100001", 100001), (ip ++ "-100002", 100002), (ip ++ "-100003", 100003), (ip ++ "-100004", 100004)]) := by
      unfold SecurityMiddleware.checkRateLimit
      dsimp only
      simp [jsMapSet, MAX_REQUESTS_PER_MINUTE, (show (("-" ++ toString (100004 : Int)) : String) = "-100004" from rfl)]
    have h5 : SecurityMiddleware.checkRateLimit ip 100005 [(ip ++ "-100000", 100000), (ip ++ "-100001", 100001), (ip ++ "-100002", 100002), (ip ++ "-100003", 100003), (ip ++ "-100004", 100004)] =
        (true, [(ip ++ "-100000", 100000), (ip ++ "-100001", 100001), (ip ++ "-100002", 100002), (ip ++ "-100003", 100003), (ip ++ "-100004", 100004), (ip ++ "-100005", 100005)]) := by
      unfold SecurityMiddleware.checkRateLimit
      dsimp only
      simp [jsMapSet, MAX_REQUESTS_PER_MINUTE, (show (("-" ++ toString (100005 : Int)) : String) = "-100005" from rfl)]
    have h6 : SecurityMiddleware.checkRateLimit ip 100006 [(ip ++ "-100000", 100000), (ip ++ "-100001", 100001), (ip ++ "-100002", 100002), (ip ++ "-100003", 100003), (ip ++ "-100004", 100004), (ip ++ "-100005", 100005)] =
        (true, [(ip ++ "-100000", 100000), (ip ++ "-100001", 100001), (ip ++ "-100002", 100002), (ip ++ "-100003", 100003), (ip ++ "-100004", 100004), (ip ++ "-100005", 100005), (ip ++ "-100006", 100006)]) := by
      unfold SecurityMiddleware.checkRateLimit
      dsimp only
      simp [jsMapSet, MAX_REQUESTS_PER_MINUTE, (show (("-" ++ toString (100006 : Int)) : String) = "-100006" from rfl)]
    have h7 : SecurityMiddleware.checkRateLimit ip 100007 [(ip ++ "-100000", 100000), (ip ++ "-100001", 100001), (ip ++ "-100002", 100002), (ip ++ "-100003", 100003), (ip ++ "-100004", 100004), (ip ++ "-100005", 100005), (ip ++ "-100006", 100006)] =
        (true, [(ip ++ "-100000", 100000), (ip ++ "-100001", 100001), (ip ++ "-100002", 100002), (ip ++ "-100003", 100003), (ip ++ "-100004", 100004), (ip ++ "-100005", 100005), (ip ++ "-100006", 100006), (ip ++ "-100007", 100007)]) := by
      unfold SecurityMiddleware.checkRateLimit
      dsimp only
      simp [jsMapSet, MAX_REQUESTS_PER_MINUTE, (show (("-" ++ toString (100007 : Int)) : String) = "-100007" from rfl)]
    have h8 : SecurityMiddleware.checkRateLimit ip 100008 [(ip ++ "-100000", 100000), (ip ++ "-100001", 100001), (ip ++ "-100002", 100002), (ip ++ "-100003", 100003), (ip ++ "-100004", 100004), (ip ++ "-100005", 100005), (ip ++ "-100006", 100006), (ip ++ "-100007", 100007)] =
        (true, [(ip ++ "-100000", 100000), (ip ++ "-100001", 100001), (ip ++ "-100002", 100002), (ip ++ "-100003", 100003), (ip ++ "-100004", 100004), (ip ++ "-100005", 100005), (ip ++ "-100006", 100006), (ip ++ "-100007", 100007), (ip ++ "-100008", 100008)]) := by
      unfold SecurityMiddleware.checkRateLimit
      dsimp only
      simp [jsMapSet, MAX_REQUESTS_PER_MINUTE, (show (("-" ++ toString (100008 : Int)) : String) = "-100008" from rfl)]
    have h9 : SecurityMiddleware.checkRateLimit ip 100009 [(ip ++ "-100000", 100000), (ip ++ "-100001", 100001), (ip ++ "-100002", 100002), (ip ++ "-100003", 100003), (ip ++ "-100004", 100004), (ip ++ "-100005", 100005), (ip ++ "-100006", 100006), (ip ++ "-100007", 100007), (ip ++ "-100008", 100008)] =
        (true, [(ip ++ "-100000", 100000), (ip ++ "-100001", 100001), (ip ++ "-100002", 100002), (ip ++ "-100003", 100003), (ip ++ "-100004", 100004), (ip ++ "-100005", 100005), (ip ++ "-100006", 100006), (ip ++ "-100007", 100007), (ip ++ "-100008", 100008), (ip ++ "-100009", 100009)]) := by
      unfold SecurityMiddleware.checkRateLimit
      dsimp only
      simp [jsMapSet, MAX_REQUESTS_PER_MINUTE, (show (("-" ++ toString (100009 : Int)) : String) = "-100009" from rfl)]
    have h10 : SecurityMiddleware.checkRateLimit ip 100010 [(ip ++ "-100000", 100000), (ip ++ "-100001", 100001), (ip ++ "-100002", 100002), (ip ++ "-100003", 100003), (ip ++ "-100004", 100004), (ip ++ "-100005", 100005), (ip ++ "-100006", 100006), (ip ++ "-100007", 100007), (ip ++ "-100008", 100008), (ip ++ "-100009", 100009)] =
        (false, [(ip ++ "-100000", 100000), (ip ++ "-100001", 100001), (ip ++ "-100002", 100002), (ip ++ "-100003", 100003), (ip ++ "-100004", 100004), (ip ++ "-100005", 100005), (ip ++ "-100006", 100006), (ip ++ "-100007", 100007), (ip ++ "-100008", 100008), (ip ++ "-100009", 100009)]) := by
      unfold SecurityMiddleware.checkRateLimit
      dsimp only
      simp [jsMapSet, MAX_REQUESTS_PER_MINUTE, (show (("-" ++ toString (100010 : Int)) : String) = "-100010" from rfl)]
    have h11 : SecurityMiddleware.checkRateLimit ip 160011 [(ip ++ "-100000", 100000), (ip ++ "-100001", 100001), (ip ++ "-100002", 100002), (ip ++ "-100003", 100003), (ip ++ "-100004", 100004), (ip ++ "-100005", 100005), (ip ++ "-100006", 100006), (ip ++ "-100007", 100007), (ip ++ "-100008", 100008), (ip ++ "-100009", 100009)] =
        (true, [(ip ++ "-160011", 160011)]) := by
      unfold SecurityMiddleware.checkRateLimit
      dsimp only
      simp [jsMapSet, MAX_REQUESTS_PER_MINUTE, (show (("-" ++ toString (160011 : Int)) : String) = "-160011" from rfl)]
    simp [rlRun, rlSchedule, h0, h1, h2, h3, h4, h5, h6, h7, h8, h9, h10, h11]

/-! ## Lemmas about the `Except`-style JS combinators -/

theorem except_bind_ok {α β : Type} (x : Except String α) (f : α → Except String β) (b : β) :
    (x >>= f = Except.ok b) ↔ ∃ a, x = .ok a ∧ f a = .ok b := by
  cases x <;> simp [Bind.bind, Except.bind]

theorem jsArrayMapM_mem (f : JVal → Except String JVal) (l l' : List JVal)
    (h : jsArrayMapM f l = .ok l') : ∀ y ∈ l', ∃ x ∈ l, f x = .ok y := by
  induction l generalizing l' with
  | nil =>
    simp only [jsArrayMapM, Except.ok.injEq] at h
    subst h
    simp
  | cons x xs ih =>
    simp only [jsArrayMapM, except_bind_ok, Except.ok.injEq] at h
    obtain ⟨y, hy, ys, hys, hl⟩ := h
    subst hl
    intro z hz
    rcases List.mem_cons.mp hz with hz | hz
    · exact ⟨x, List.mem_cons_self x xs, hz ▸ hy⟩
    · obtain ⟨w, hw, hfw⟩ := ih ys hys z hz
      exact ⟨w, List.mem_cons_of_mem x hw, hfw⟩

theorem jsArrayFilterM_mem_spec (p : JVal → Except String JVal) (l l' : List JVal)
    (h : jsArrayFilterM p l = .ok l') :
    ∀ y ∈ l', ∃ v, p y = .ok v ∧ v.truthy = true := by
  induction l generalizing l' with
  | nil =>
    simp only [jsArrayFilterM, Except.ok.injEq] at h
    subst h
    simp
  | cons x xs ih =>
    simp only [jsArrayFilterM, except_bind_ok, Except.ok.injEq] at h
    obtain ⟨v, hv, rest, hrest, hl⟩ := h
    subst hl
    intro y hy
    by_cases ht : v.truthy = true
    · rw [if_pos ht] at hy
      rcases List.mem_cons.mp hy with hz | hz
      · subst hz; exact ⟨v, hv, ht⟩
      · exact ih rest hrest y hz
    · rw [if_neg ht] at hy
      exact ih rest hrest y hy

theorem orElse_truthy_of_right (a b : JVal) (hb : b.truthy = true) :
    (a.orElse b).truthy = true := by
  unfold JVal.orElse
  by_cases ha : a.truthy = true
  · rw [if_pos ha]; exact ha
  · rw [if_neg ha]; exact hb

/-! Phone-shape lemma shared by the two (textually identical) phone mappers. -/

theorem mapPhones_spec (est r : JVal) (h : DataMapper.mapPhones est = .ok r) :
    ∃ l, r = .jarr l ∧ l.length ≤ 2 ∧
      ∀ p ∈ l, jresObjField p "type" = some (.jstr "LANDLINE") := by
  unfold DataMapper.mapPhones at h
  simp only [except_bind_ok, Except.ok.injEq] at h
  obtain ⟨d1, hd1, t1, ht1, d2, hd2, t2, ht2, hr⟩ := h
  subst hr
  refine ⟨_, rfl, ?_⟩
  by_cases c1 : (d1.truthy && t1.truthy) = true <;>
    by_cases c2 : (d2.truthy && t2.truthy) = true <;>
      simp [c1, c2, jresObjField, jobjLookup, List.find?]

theorem cnpjJsPhones_eq_mapPhones (est : JVal) :
    cnpjJsPhones est = DataMapper.mapPhones est := rfl

/-! Member-shape lemmas for the two member mappers. -/

theorem mapMembers_spec (socios r : JVal) (h : DataMapper.mapMembers socios = .ok r) :
    ∃ l, r = .jarr l ∧ ∀ m ∈ l, ∃ n, memberPersonName m = .ok n ∧ n.truthy = true := by
  unfold DataMapper.mapMembers at h
  by_cases hc : (!socios.truthy || !socios.isArray) = true
  · rw [if_pos hc] at h
    simp only [Except.ok.injEq] at h
    subst h
    exact ⟨[], rfl, by simp⟩
  · rw [if_neg hc] at h
    cases socios with
    | jarr xs =>
      simp only [except_bind_ok, Except.ok.injEq] at h
      obtain ⟨mapped, hmapped, filtered, hfiltered, hr⟩ := h
      subst hr
      refine ⟨filtered, rfl, ?_⟩
      intro m hm
      exact jsArrayFilterM_mem_spec _ _ _ hfiltered m hm
    | jundefined => simp only [Except.ok.injEq] at h; subst h; exact ⟨[], rfl, by simp⟩
    | jnull => simp only [Except.ok.injEq] at h; subst h; exact ⟨[], rfl, by simp⟩
    | jbool b => simp only [Except.ok.injEq] at h; subst h; exact ⟨[], rfl, by simp⟩
    | jnum q => simp only [Except.ok.injEq] at h; subst h; exact ⟨[], rfl, by simp⟩
    | jstr s => simp only [Except.ok.injEq] at h; subst h; exact ⟨[], rfl, by simp⟩
    | jobj fs => simp only [Except.ok.injEq] at h; subst h; exact ⟨[], rfl, by simp⟩

theorem cnpjJsMembers_spec (socios r : JVal) (h : cnpjJsMembers socios = .ok r) :
    ∃ l, r = .jarr l ∧ ∀ m ∈ l, ∃ n, memberPersonName m = .ok n ∧ n.truthy = true := by
  unfold cnpjJsMembers at h
  simp only [except_bind_ok, Except.ok.injEq] at h
  obtain ⟨mapped, hmapped, hr⟩ := h
  subst hr
  cases socios with
  | jundefined =>
    simp only [jsOptMapCall, Except.ok.injEq] at hmapped
    subst hmapped
    exact ⟨[], rfl, by simp⟩
  | jnull =>
    simp only [jsOptMapCall, Except.ok.injEq] at hmapped
    subst hmapped
    exact ⟨[], rfl, by simp⟩
  | jarr xs =>
    simp only [jsOptMapCall, except_bind_ok, Except.ok.injEq] at hmapped
    obtain ⟨ys, hys, hm⟩ := hmapped
    subst hm
    refine ⟨ys, rfl, ?_⟩
    intro m hm
    obtain ⟨x, hx, hfx⟩ := jsArrayMapM_mem _ _ _ hys m hm
    simp only [except_bind_ok, Except.ok.injEq] at hfx
    obtain ⟨nome, hnome, faixa, hfaixa, qual, hqual, qd, hqd, tipo, htipo, de, hde, hm2⟩ := hfx
    subst hm2
    refine ⟨nome.orElse (.jstr "Não informado"), ?_, ?_⟩
    · simp [memberPersonName, JVal.getField, jobjLookup, List.find?, Bind.bind, Except.bind]
    · exact orElse_truthy_of_right _ _ (by decide)
  | jbool b => simp [jsOptMapCall] at hmapped
  | jnum q => simp [jsOptMapCall] at hmapped
  | jstr s => simp [jsOptMapCall] at hmapped
  | jobj fs => simp [jsOptMapCall] at hmapped

theorem phonesOfResult_ok (v : JVal) : phonesOfResult (.ok v) =
    (match jresObjField v "phones" with | some (.jarr l) => some l | _ => none) := rfl

theorem membersOfResult_ok (v : JVal) : membersOfResult (.ok v) =
    (match jresObjField2 v "company" "members" with | some (.jarr l) => some l | _ => none) := rfl

theorem DataMapper_ok_fields (d r : JVal) (h : DataMapper.mapToFrontendStructure d = .ok r) :
    ∃ socios members phones,
      DataMapper.mapMembers socios = .ok members ∧
      DataMapper.mapPhones (JVal.orElse (match d.getField "estabelecimento" with
        | .ok v => v | .error _ => .jundefined) (.jobj [])) = .ok phones ∧
      jresObjField r "phones" = some phones ∧
      jresObjField2 r "company" "members" = some members := by
  unfold DataMapper.mapToFrontendStructure at h
  simp only [except_bind_ok, Except.ok.injEq] at h
  obtain ⟨estRaw, hestRaw, simplesRaw, hsimplesRaw, estCnpj, hestCnpj, cnpjRaiz, hcnpjRaiz, nomeFantasia, hnomeFantasia, founded, hfounded, updated, hupdated, situacao, hsituacao, statusDate, hstatusDate, tipo, htipo, razao, hrazao, natureza, hnatureza, nature, hnature, porte, hporte, size, hsize, capital, hcapital, simplesFlag, hsimplesFlag, simplesSince, hsimplesSince, meiFlag, hmeiFlag, meiSince, hmeiSince, socios, hsocios, members, hmembers, address, haddress, phones, hphones, emails, hemails, atividadePrincipal, hatividadePrincipal, mainActivity, hmainActivity, atividadesSecundarias, hatividadesSecundarias, sideActivities, hsideActivities, inscricoes, hinscricoes, registrations, hregistrations, hrec⟩ := h
  subst hrec
  refine ⟨socios, members, phones, hmembers, ?_, rfl, rfl⟩
  rw [hestRaw]
  exact hphones

theorem cnpjJs_ok_fields (d r : JVal) (h : mapDataToFrontendStructure d = .ok r) :
    ∃ socios members phones,
      cnpjJsMembers socios = .ok members ∧
      cnpjJsPhones (JVal.orElse (match d.getField "estabelecimento" with
        | .ok v => v | .error _ => .jundefined) (.jobj [])) = .ok phones ∧
      jresObjField r "phones" = some phones ∧
      jresObjField2 r "company" "members" = some members := by
  unfold mapDataToFrontendStructure at h
  simp only [except_bind_ok, Except.ok.injEq] at h
  obtain ⟨estRaw, hestRaw, simplesRaw, hsimplesRaw, estCnpj, hestCnpj, cnpjRaiz, hcnpjRaiz, nomeFantasia, hnomeFantasia, founded, hfounded, updated, hupdated, situacao, hsituacao, statusDate, hstatusDate, tipo, htipo, razao, hrazao, natureza, hnatureza, natId, hnatId, natDesc, hnatDesc, porte, hporte, porteDesc, hporteDesc, porteId, hporteId, capital, hcapital, equity, hequity, simplesFlag, hsimplesFlag, simplesSince, hsimplesSince, meiFlag, hmeiFlag, meiSince, hmeiSince, socios, hsocios, members, hmembers, tipoLog, htipoLog, log, hlog, numero, hnumero, compl, hcompl, bairro, hbairro, cidade, hcidade, cidadeNome, hcidadeNome, estado, hestado, estadoSigla, hestadoSigla, cep, hcep, pais, hpais, paisNome, hpaisNome, phones, hphones, email, hemail, atividadePrincipal, hatividadePrincipal, mainId, hmainId, mainDesc, hmainDesc, atividadesSecundarias, hatividadesSecundarias, sideActs, hsideActs, inscricoes, hinscricoes, regs, hregs, hrec⟩ := h
  subst hrec
  refine ⟨socios, members, phones, hmembers, ?_, rfl, rfl⟩
  rw [hestRaw]
  exact hphones

/-- C10: for every raw upstream response, a mapped record's phones list (from
either mapper copy) has at most two entries, and every entry has type
"LANDLINE" — the "MOBILE" variant is never produced. -/
theorem C10_phones_at_most_two_all_landline (d : JVal) (l : List JVal) :
    (phonesOfResult (DataMapper.mapToFrontendStructure d) = some l →
      l.length ≤ 2 ∧ ∀ p ∈ l, jresObjField p "type" = some (.jstr "LANDLINE")) ∧
    (phonesOfResult (mapDataToFrontendStructure d) = some l →
      l.length ≤ 2 ∧ ∀ p ∈ l, jresObjField p "type" = some (.jstr "LANDLINE")) := by
  constructor
  · intro h
    cases hmap : DataMapper.mapToFrontendStructure d with
    | error e => rw [hmap] at h; exact absurd h (by simp [phonesOfResult])
    | ok r =>
      rw [hmap] at h
      obtain ⟨socios, members, phones, hmem, hph, hpl, hml⟩ := DataMapper_ok_fields d r hmap
      obtain ⟨l0, hl0, hlen, htypes⟩ := mapPhones_spec _ _ hph
      subst hl0
      rw [phonesOfResult_ok, hpl] at h
      simp only [Option.some.injEq] at h
      subst h
      exact ⟨hlen, htypes⟩
  · intro h
    cases hmap : mapDataToFrontendStructure d with
    | error e => rw [hmap] at h; exact absurd h (by simp [phonesOfResult])
    | ok r =>
      rw [hmap] at h
      obtain ⟨socios, members, phones, hmem, hph, hpl, hml⟩ := cnpjJs_ok_fields d r hmap
      rw [cnpjJsPhones_eq_mapPhones] at hph
      obtain ⟨l0, hl0, hlen, htypes⟩ := mapPhones_spec _ _ hph
      subst hl0
      rw [phonesOfResult_ok, hpl] at h
      simp only [Option.some.injEq] at h
      subst h
      exact ⟨hlen, htypes⟩

/-- Witness for C10 at the empty upstream object, whose mapped phones list is
empty for both mappers. -/
theorem C10_phones_witness :
    (([] : List JVal).length ≤ 2 ∧
        ∀ p ∈ ([] : List JVal), jresObjField p "type" = some (.jstr "LANDLINE")) ∧
      (([] : List JVal).length ≤ 2 ∧
        ∀ p ∈ ([] : List JVal), jresObjField p "type" = some (.jstr "LANDLINE")) :=
  ⟨(C10_phones_at_most_two_all_landline (.jobj []) []).1 rfl,
    (C10_phones_at_most_two_all_landline (.jobj []) []).2 rfl⟩

/-- C4 counterexample: on `{socios: [{}]}` — one socio without a resolvable
name — the api/cnpj.js mapper does NOT exclude the member: it keeps it under
the placeholder name "Não informado", while the script.js DataMapper copy
drops it. -/
theorem C4_counterexample_nameless_member_kept :
    membersOfResult (mapDataToFrontendStructure (.jobj [("socios", .jarr [.jobj []])]))
        = some [.jobj [("person", .jobj [("name", .jstr "Não informado"), ("age", .jstr "Não informada")]),
            ("role", .jobj [("text", .jstr "Sócio")]), ("since", .jundefined)]] ∧
      membersOfResult (DataMapper.mapToFrontendStructure (.jobj [("socios", .jarr [.jobj []])]))
        = some [] :=
  ⟨rfl, rfl⟩

/-- C4 (amended): the script.js `DataMapper` excludes members without a
resolvable name (every member of its output has a truthy `person.name`); the
api/cnpj.js mapper instead retains such members under the placeholder name
"Não informado", so its output also never contains a member with an absent
`person.name`, but nothing is dropped. -/
theorem C4_amended_members_always_named (d : JVal) (l : List JVal) :
    (membersOfResult (DataMapper.mapToFrontendStructure d) = some l →
      ∀ m ∈ l, ∃ n, memberPersonName m = .ok n ∧ n.truthy = true) ∧
    (membersOfResult (mapDataToFrontendStructure d) = some l →
      ∀ m ∈ l, ∃ n, memberPersonName m = .ok n ∧ n.truthy = true) := by
  constructor
  · intro h
    cases hmap : DataMapper.mapToFrontendStructure d with
    | error e => rw [hmap] at h; exact absurd h (by simp [membersOfResult])
    | ok r =>
      rw [hmap] at h
      obtain ⟨socios, members, phones, hmem, hph, hpl, hml⟩ := DataMapper_ok_fields d r hmap
      obtain ⟨l0, hl0, hnames⟩ := mapMembers_spec _ _ hmem
      subst hl0
      rw [membersOfResult_ok, hml] at h
      simp only [Option.some.injEq] at h
      subst h
      exact hnames
  · intro h
    cases hmap : mapDataToFrontendStructure d with
    | error e => rw [hmap] at h; exact absurd h (by simp [membersOfResult])
    | ok r =>
      rw [hmap] at h
      obtain ⟨socios, members, phones, hmem, hph, hpl, hml⟩ := cnpjJs_ok_fields d r hmap
      obtain ⟨l0, hl0, hnames⟩ := cnpjJsMembers_spec _ _ hmem
      subst hl0
      rw [membersOfResult_ok, hml] at h
      simp only [Option.some.injEq] at h
      subst h
      exact hnames

/-- Witness for C4 on an upstream response with one named socio. -/
theorem C4_members_witness :
    ∀ m ∈ [JVal.jobj [("person", .jobj [("name", .jstr "A"), ("age", .jnull)]),
        ("role", .jobj [("text", .jstr "Sócio")]), ("since", .jundefined)]],
      ∃ n, memberPersonName m = .ok n ∧ n.truthy = true :=
  (C4_amended_members_always_named (.jobj [("socios", .jarr [.jobj [("nome", .jstr "A")]])])
    [JVal.jobj [("person", .jobj [("name", .jstr "A"), ("age", .jnull)]),
      ("role", .jobj [("text", .jstr "Sócio")]), ("since", .jundefined)]]).1 rfl

/-- C3: the claim says the data mapper never raises for any upstream JSON
shape, including a numeric `capital_social`. The api/cnpj.js copy violates
this: its optional chain calls `.replace` on the number and throws a
`TypeError`, aborting the whole mapping; the script.js DataMapper copy
catches inside `parseCurrency` and degrades the field to 0 as the spec
describes. -/
theorem C3_numeric_capital_social_throws :
    (mapDataToFrontendStructure (.jobj [("capital_social", .jnum 1000)])).isOk = false ∧
      (DataMapper.mapToFrontendStructure (.jobj [("capital_social", .jnum 1000)])).isOk = true ∧
      DataMapper.parseCurrency (.jnum 1000) = 0 ∧
      (DataMapper.mapToFrontendStructure (.jobj [("socios", .jarr [.jnull])])).isOk = false :=
  ⟨rfl, rfl, rfl, rfl⟩

/-- C9: a request whose method is neither GET nor OPTIONS gets 405 with
`error: true` from both handlers, with the rate-limit map and cache untouched
(the script.js state is returned unchanged) and without consulting the query,
the fetch outcome or anything else. -/
theorem C9_unknown_method_rejected_405 (method : String)
    (h1 : method ≠ "GET") (h2 : method ≠ "OPTIONS") :
    (∀ q ip now f dev st, scriptHandler method q ip now f dev st =
      (⟨405, some ⟨true, some "Método não permitido", none, none, none⟩⟩, st)) ∧
    (∀ q f, cnpjHandler method q f =
      ⟨405, some ⟨true, some "Método não permitido", none, none, none⟩⟩) := by
  constructor
  · intro q ip now f dev st
    unfold scriptHandler
    rw [if_neg h2, if_pos h1]
  · intro q f
    unfold cnpjHandler
    rw [if_neg h2, if_pos h1]

/-- Witness for C9 with the POST method. -/
theorem C9_unknown_method_rejected_405_witness :
    (∀ q ip now f dev st, scriptHandler "POST" q ip now f dev st =
      (⟨405, some ⟨true, some "Método não permitido", none, none, none⟩⟩, st)) ∧
    (∀ q f, cnpjHandler "POST" q f =
      ⟨405, some ⟨true, some "Método não permitido", none, none, none⟩⟩) :=
  C9_unknown_method_rejected_405 "POST" (by decide) (by decide)

/-- C8: the external client clears its timeout timer on every exit path, an
abort (the call exceeded `TIMEOUT_MS` and was cancelled through the abort
signal) surfaces as the Timeout error, and the script.js handler maps that
timed-out lookup to `408 {error: true}` (details only in development mode). -/
theorem C8_timeout_cancelled_maps_to_408 (dev : Bool) (ip : String) (now : Int) :
    (∀ o, (ExternalAPIClient.fetchCNPJData o).2 = true) ∧
      ExternalAPIClient.fetchCNPJData .aborted =
        (.error "Timeout na consulta da API externa", true) ∧
      (scriptHandler "GET" (some "11222333000181") ip now .aborted dev ⟨[], []⟩).1 =
        ⟨408, some ⟨true, some "Timeout na consulta externa", none, none,
          if dev then some "Timeout na consulta da API externa" else none⟩⟩ := by
  refine ⟨fun o => by cases o <;> rfl, rfl, ?_⟩
  rfl

/-- C7 counterexample: a successful lookup through the api/cnpj.js handler
returns 200 with `error: false` and data, but NO `cached` field at all. -/
theorem C7_counterexample_cnpjJs_success_lacks_cached :
    (cnpjHandler "GET" (some "11222333000181") (.success demoApiData)).status = 200 ∧
      (cnpjHandler "GET" (some "11222333000181") (.success demoApiData)).errorFlag = some false ∧
      (cnpjHandler "GET" (some "11222333000181") (.success demoApiData)).dataField.isSome = true ∧
      (cnpjHandler "GET" (some "11222333000181") (.success demoApiData)).cachedField = none :=
  ⟨rfl, rfl, rfl, rfl⟩

/-- C7 (amended): every 200 JSON response of the script.js handler (i.e. other
than the empty OPTIONS preflight reply) carries `error: false`, data and a
boolean `cached` field; a first successful lookup answers `cached: false` and
an immediate repeat of the same CNPJ answers `cached: true` with identical
data. The api/cnpj.js handler's 200 response carries no `cached` field (see
the counterexample). -/
theorem C7_amended_script_handler_cached (method : String) (q : Option String) (ip : String)
    (now : Int) (f : FetchOutcome) (dev : Bool) (st : ServerState)
    (hm : method ≠ "OPTIONS") :
    ((scriptHandler method q ip now f dev st).1.status = 200 →
      ∃ b, (scriptHandler method q ip now f dev st).1.body = some b ∧
        b.error = false ∧ b.cached.isSome = true ∧ b.data.isSome = true) ∧
    (c7Call1.1.status = 200 ∧ c7Call1.1.cachedField = some false ∧
      c7Call2.1.status = 200 ∧ c7Call2.1.cachedField = some true ∧
      c7Call2.1.dataField = c7Call1.1.dataField ∧ c7Call1.1.dataField.isSome = true) := by
  constructor
  · unfold scriptHandler
    rw [if_neg hm]
    dsimp only
    split_ifs with hmeth hrl hq
    · intro h; simp at h
    · intro h; simp at h
    · intro h; simp at h
    · split
      · intro h; simp at h
      · split
        · intro h; exact ⟨_, rfl, rfl, rfl, rfl⟩
        · split
          · intro h
            unfold handlerCatch at h
            dsimp only at h
            split_ifs at h <;> simp at h
          · split
            · intro h
              unfold handlerCatch at h
              dsimp only at h
              split_ifs at h <;> simp at h
            · split_ifs with htax
              · intro h
                unfold handlerCatch at h
                dsimp only at h
                split_ifs at h <;> simp at h
              · intro h; exact ⟨_, rfl, rfl, rfl, rfl⟩
  · exact ⟨rfl, rfl, rfl, rfl, rfl, rfl⟩

/-- Witness for C7 at the concrete first call of the scenario. -/
theorem C7_amended_script_handler_cached_witness :
    ∃ b, (scriptHandler "GET" (some "11222333000181") "203.0.113.7" 1000000
        (.success demoApiData) false ⟨[], []⟩).1.body = some b ∧
      b.error = false ∧ b.cached.isSome = true ∧ b.data.isSome = true :=
  (C7_amended_script_handler_cached "GET" (some "11222333000181") "203.0.113.7" 1000000
    (.success demoApiData) false ⟨[], []⟩ (by decide)).1 rfl
